import Mathlib

/-!
Verification of the aggregation/reporting pipeline of
`src/streamlit_app_supabase.py` (a Streamlit dashboard over a Supabase
table of PCC exam results).

The embedding below translates, from the Python source:

* the record schema after the preprocessing in `load_data_from_supabase`
  (lines 83-121): `회차` (round) cast to an integer, `학년` (grade) kept
  as a string, `총점` (score) coerced to a number with missing values
  (`pd.to_numeric(..., errors="coerce")`) modelled as `Option ℚ`,
  `등급(Lv.)` (level) defaulted to the sentinel `"없음"`, and `합격여부`
  (pass status) kept verbatim;
* the sidebar multiselect filter application (lines 219-225);
* the overall statistic of the first tab (lines 259-261) together with
  the negative count of the per-round table (lines 336-338);
* the student grouping of the performance tab (lines 625-656) and of the
  retake analysis (lines 828-838, 863-868);
* the round-3 versus round-5 cohort comparison (lines 931-1100);
* the empty-data handling of the main pipeline (lines 94-96, 158-160
  and 227-229).

Floating-point numbers of the source are modelled as rationals; pandas
`NaN` propagation on missing scores is modelled with `Option`.
-/

/-- One exam record: a row of the `pcc_result` table after the
preprocessing of `load_data_from_supabase` (lines 98-119). -/
structure Record where
  round : Int
  subject : String
  name : String
  studentId : String
  email : String
  dept : String
  grade : String
  score : Option ℚ
  status : String
  level : String
  deriving Repr, DecidableEq

/-- The sidebar filter state (lines 167-204): one multiselect per field,
each holding the accepted values for that field. -/
structure FilterSpec where
  departments : List String
  grades : List String
  passStatus : List String
  levels : List String
  subjects : List String
  deriving Repr, DecidableEq

/-- The fixed option list of the pass-status multiselect (lines 183-188):
both `options` and `default` are the literal list `['합격', '불합격']`,
so the user can only ever select a subset of this vocabulary. -/
def defaultPassOptions : List String := ["합격", "불합격"]

/-- The row predicate of the filter expression at lines 219-225: a
conjunction of five `isin` membership tests. -/
def recordPasses (f : FilterSpec) (r : Record) : Bool :=
  f.departments.contains r.dept &&
  f.grades.contains r.grade &&
  f.passStatus.contains r.status &&
  f.levels.contains r.level &&
  f.subjects.contains r.subject

/-- `filtered_df = df[...]` at lines 219-225: keep the rows satisfying
all five membership tests, in their original order. -/
def applyFilters (f : FilterSpec) (rs : List Record) : List Record :=
  rs.filter (recordPasses f)

/-- The overall statistic of §4.1, as computed at lines 259-261
(`total_applicants`, `total_passed`, `total_pass_rate` with its
division-by-zero guard) and line 337 (`불합격자수 = 총_응시자수 - 합격자수`). -/
structure OverallStat where
  total : Nat
  positive : Nat
  negative : Nat
  rate : ℚ
  deriving Repr, DecidableEq

/-- Lines 259-261 and 337: `total = len(df)`, `positive` counts the rows
with status `'합격'`, `negative = total - positive`, and
`rate = positive / total * 100` guarded to `0` when `total == 0`. -/
def overallStats (rs : List Record) : OverallStat :=
  let total := rs.length
  let positive := (rs.filter (fun r => r.status == "합격")).length
  let negative := total - positive
  let rate : ℚ := if total > 0 then (positive : ℚ) / (total : ℚ) * 100 else 0
  ⟨total, positive, negative, rate⟩

/-- The all-zero statistic. -/
def zeroStat : OverallStat := ⟨0, 0, 0, 0⟩

-- Small concrete inputs used by the witnesses and counterexamples.

/-- A concrete passing record. -/
def sampleRecPass : Record :=
  ⟨1, "PCCP", "김철수", "202100001", "kim@pusan.ac.kr", "정보컴퓨터공학부", "3",
    some 450, "합격", "Lv.2"⟩

/-- A concrete failing record. -/
def sampleRecFail : Record :=
  ⟨1, "PCCP", "이영희", "202100002", "lee@pusan.ac.kr", "정보컴퓨터공학부", "2",
    some 380, "불합격", "Lv.1"⟩

/-- A filter accepting exactly the field values observed in the two
sample records, with the pass-status options at their defaults. -/
def sampleFilter : FilterSpec :=
  ⟨["정보컴퓨터공학부"], ["3", "2"], defaultPassOptions, ["Lv.2", "Lv.1"], ["PCCP"]⟩

-- Helper lemmas shared by several claims.

theorem recordPasses_iff (f : FilterSpec) (r : Record) :
    recordPasses f r = true ↔
      r.dept ∈ f.departments ∧ r.grade ∈ f.grades ∧ r.status ∈ f.passStatus ∧
      r.level ∈ f.levels ∧ r.subject ∈ f.subjects := by
  simp [recordPasses, Bool.and_eq_true, List.elem_iff, and_assoc]

theorem length_filter_le_length (p : Record → Bool) (rs : List Record) :
    (rs.filter p).length ≤ rs.length :=
  List.length_filter_le p rs

/-- Claim C1 (spec §4.1, §8.1, §8.8): after filtering, the overall
statistic satisfies `negative = total - positive`, hence
`positive + negative = total`; and on an empty filtered set the
computation is total (the rate guard takes the `else 0` branch) and
returns the zero-value statistic. -/
theorem overall_stats_partition (f : FilterSpec) (rs : List Record) :
    (overallStats (applyFilters f rs)).positive +
        (overallStats (applyFilters f rs)).negative =
      (overallStats (applyFilters f rs)).total ∧
    (applyFilters f rs = [] → overallStats (applyFilters f rs) = zeroStat) := by
  constructor
  · have hle := length_filter_le_length (fun r => r.status == "합격") (applyFilters f rs)
    simp only [overallStats]
    omega
  · intro h
    rw [h]
    rfl

/-- Witness for C1 at a concrete input: the empty record set. -/
theorem overall_stats_partition_witness :
    (overallStats (applyFilters sampleFilter [])).positive +
        (overallStats (applyFilters sampleFilter [])).negative =
      (overallStats (applyFilters sampleFilter [])).total ∧
    overallStats (applyFilters sampleFilter []) = zeroStat :=
  ⟨(overall_stats_partition sampleFilter []).1,
   (overall_stats_partition sampleFilter []).2 rfl⟩

/-- Counterexample for claim C2: the claim says the rate equals `0`
exactly when `total == 0`, but at lines 259-261 a set holding a single
failing record has `total = 1` and `rate = 0/1*100 = 0`. -/
theorem rate_zero_iff_total_zero_cex :
    ¬((overallStats [sampleRecFail]).rate = 0 ↔
        (overallStats [sampleRecFail]).total = 0) := by
  intro h
  have h1 : (overallStats [sampleRecFail]).rate = 0 := by
    simp [overallStats, sampleRecFail]
  have h2 : (overallStats [sampleRecFail]).total = 1 := rfl
  rw [h2] at h
  exact absurd (h.mp h1) one_ne_zero

/-- Claim C2 as amended: the computed rate always lies in `[0, 100]`;
`total == 0` forces `rate = 0` through the division-by-zero guard of
line 261 (no exception is possible, the guard is total); and the rate
is `0` exactly when the positive count is `0` (which includes, but is
not limited to, `total == 0`). -/
theorem rate_bounds (f : FilterSpec) (rs : List Record) :
    0 ≤ (overallStats (applyFilters f rs)).rate ∧
    (overallStats (applyFilters f rs)).rate ≤ 100 ∧
    ((overallStats (applyFilters f rs)).total = 0 →
      (overallStats (applyFilters f rs)).rate = 0) ∧
    ((overallStats (applyFilters f rs)).rate = 0 ↔
      (overallStats (applyFilters f rs)).positive = 0) := by
  have hle := length_filter_le_length (fun r => r.status == "합격") (applyFilters f rs)
  simp only [overallStats]
  by_cases ht : (applyFilters f rs).length > 0
  · have h2 : (0 : ℚ) < ((applyFilters f rs).length : ℚ) := by exact_mod_cast ht
    have h1 : (((applyFilters f rs).filter (fun r => r.status == "합격")).length : ℚ) ≤
        ((applyFilters f rs).length : ℚ) := by exact_mod_cast hle
    simp only [if_pos ht]
    refine ⟨by positivity, ?_, ?_, ?_⟩
    · rw [div_mul_eq_mul_div, div_le_iff₀ h2]
      nlinarith
    · intro h0
      omega
    · rw [mul_eq_zero, div_eq_zero_iff]
      simp [h2.ne', Nat.cast_eq_zero]
  · have h0 : (applyFilters f rs).length = 0 := by omega
    simp only [if_neg ht]
    refine ⟨le_refl 0, by norm_num, fun _ => trivial, ?_⟩
    constructor
    · intro _
      omega
    · intro _
      trivial

/-- Witness for C2 at a concrete input: one passing and one failing
record through a filter that accepts both. -/
theorem rate_bounds_witness :
    0 ≤ (overallStats (applyFilters sampleFilter [sampleRecPass, sampleRecFail])).rate ∧
    (overallStats (applyFilters sampleFilter [sampleRecPass, sampleRecFail])).rate ≤ 100 ∧
    ((overallStats (applyFilters sampleFilter [sampleRecPass, sampleRecFail])).rate = 0 ↔
      (overallStats (applyFilters sampleFilter [sampleRecPass, sampleRecFail])).positive = 0) :=
  ⟨(rate_bounds sampleFilter [sampleRecPass, sampleRecFail]).1,
   (rate_bounds sampleFilter [sampleRecPass, sampleRecFail]).2.1,
   (rate_bounds sampleFilter [sampleRecPass, sampleRecFail]).2.2.2⟩

/-- The two sample records as a record set. -/
def sampleRecords : List Record := [sampleRecPass, sampleRecFail]

/-- A filter whose department list is empty and whose other accepted
sets contain the sample values. -/
def emptyDeptFilter : FilterSpec :=
  ⟨[], ["3", "2"], defaultPassOptions, ["Lv.2", "Lv.1"], ["PCCP"]⟩

/-- The filter whose accepted sets are exactly the observed values of
`sampleRecords`, field by field. -/
def observedFilter : FilterSpec :=
  ⟨sampleRecords.map Record.dept, sampleRecords.map Record.grade,
   sampleRecords.map Record.status, sampleRecords.map Record.level,
   sampleRecords.map Record.subject⟩

/-- Claim C3 (spec §4.6, §8.5): filter application at lines 219-225 is
a conjunction of per-field membership tests; an empty accepted set for
any field lets nothing pass; applying the same filter twice equals
applying it once; and accepting exactly the observed values of every
field returns the original record set unchanged, order preserved. -/
theorem filter_semantics (f : FilterSpec) (rs : List Record) :
    (∀ r, r ∈ applyFilters f rs ↔
        r ∈ rs ∧ r.dept ∈ f.departments ∧ r.grade ∈ f.grades ∧
        r.status ∈ f.passStatus ∧ r.level ∈ f.levels ∧ r.subject ∈ f.subjects) ∧
    ((f.departments = [] ∨ f.grades = [] ∨ f.passStatus = [] ∨
        f.levels = [] ∨ f.subjects = []) → applyFilters f rs = []) ∧
    applyFilters f (applyFilters f rs) = applyFilters f rs ∧
    ((f.departments = rs.map Record.dept ∧ f.grades = rs.map Record.grade ∧
      f.passStatus = rs.map Record.status ∧ f.levels = rs.map Record.level ∧
      f.subjects = rs.map Record.subject) → applyFilters f rs = rs) := by
  refine ⟨?_, ?_, ?_, ?_⟩
  · intro r
    rw [applyFilters, List.mem_filter, recordPasses_iff]
  · intro h
    apply List.eq_nil_iff_forall_not_mem.mpr
    intro r hr
    rw [applyFilters, List.mem_filter, recordPasses_iff] at hr
    rcases h with h | h | h | h | h <;> rw [h] at hr <;> simp at hr
  · exact List.filter_eq_self.mpr (fun a ha => (List.mem_filter.mp ha).2)
  · rintro ⟨h1, h2, h3, h4, h5⟩
    apply List.filter_eq_self.mpr
    intro a ha
    rw [recordPasses_iff, h1, h2, h3, h4, h5]
    exact ⟨List.mem_map_of_mem _ ha, List.mem_map_of_mem _ ha,
      List.mem_map_of_mem _ ha, List.mem_map_of_mem _ ha, List.mem_map_of_mem _ ha⟩

/-- Witness for C3 at concrete inputs: idempotence on the sample set,
the empty-department filter letting nothing pass, and the
observed-values filter acting as the identity. -/
theorem filter_semantics_witness :
    applyFilters sampleFilter (applyFilters sampleFilter sampleRecords) =
      applyFilters sampleFilter sampleRecords ∧
    applyFilters emptyDeptFilter sampleRecords = [] ∧
    applyFilters observedFilter sampleRecords = sampleRecords :=
  ⟨(filter_semantics sampleFilter sampleRecords).2.2.1,
   (filter_semantics emptyDeptFilter sampleRecords).2.1 (Or.inl rfl),
   (filter_semantics observedFilter sampleRecords).2.2.2 ⟨rfl, rfl, rfl, rfl, rfl⟩⟩

/-- Modelled from the spec: no trend-direction classifier exists in
`src/streamlit_app_supabase.py` (the growth-trend tab, lines 770-822,
only charts the per-round rates); this definition follows the words of
spec §4.3: with fewer than two groups the direction is "insufficient
data", otherwise the last rate minus the second-to-last rate is
compared against the fixed `±1.0` thresholds. -/
def trendDirection (rates : List ℚ) : String :=
  match rates.reverse with
  | newest :: second :: _ =>
      if newest - second > 1 then "rising"
      else if newest - second < -1 then "falling"
      else "flat"
  | _ => "insufficient data"

/-- Claim C4 (spec §4.3, §8.4): fewer than two groups gives
"insufficient data"; otherwise, with `delta` the last rate minus the
second-to-last rate, the direction is "rising" when `delta > 1`,
"falling" when `delta < -1` and "flat" otherwise. -/
theorem trend_direction_rule (rates : List ℚ) :
    (rates.length < 2 → trendDirection rates = "insufficient data") ∧
    (∀ pre a b, rates = pre ++ [a, b] →
      trendDirection rates =
        if b - a > 1 then "rising" else if b - a < -1 then "falling" else "flat") := by
  constructor
  · intro h
    rcases rates with _ | ⟨x, _ | ⟨y, t⟩⟩
    · rfl
    · rfl
    · simp at h
      omega
  · rintro pre a b rfl
    simp [trendDirection, List.reverse_append]

/-- Witness for C4 at concrete inputs: the empty sequence and the
rising sequence `[50, 100]`. -/
theorem trend_direction_rule_witness :
    trendDirection [] = "insufficient data" ∧
    trendDirection [(50 : ℚ), 100] = "rising" := by
  constructor
  · exact (trend_direction_rule []).1 (by norm_num)
  · have h := (trend_direction_rule [(50 : ℚ), 100]).2 [] 50 100 rfl
    rw [h]
    norm_num

/-- The composite student key of the performance tab (line 625):
`groupby(['이름', '이메일', '학번'])`. -/
def studentKey (r : Record) : String × String × String := (r.name, r.email, r.studentId)

/-- The group size of one student key in a record set (the `.size()`
column of line 625). -/
def attemptCount (rs : List Record) (k : String × String × String) : Nat :=
  (rs.filter (fun r => studentKey r == k)).length

/-- The keys of the frequent-test-taker table (lines 625-626): one row
per distinct student key whose group size is at least 3.  pandas
returns the keys sorted; only which keys appear and how often matters
to the claims, so the distinct keys are taken with `dedup`. -/
def frequentTestTakers (rs : List Record) : List (String × String × String) :=
  ((rs.map studentKey).dedup).filter (fun k => 3 ≤ attemptCount rs k)

/-- The composite key of the retake analysis (lines 828-832):
`groupby(['이름', '학번'])` - the email is not part of this key. -/
def retakeKey (r : Record) : String × String := (r.name, r.studentId)

/-- `retake_students` at line 828:
`groupby(['이름','학번']).filter(lambda x: len(x) > 1)` keeps every row
whose (name, student id) group has at least two rows, in the original
row order. -/
def retakeStudents (rs : List Record) : List Record :=
  rs.filter (fun r => 2 ≤ (rs.filter (fun s => retakeKey s == retakeKey r)).length)

/-- Follows the spec's words for claim C5: the same retake selection
but grouped by the full three-field key (name, email, student id) the
claim asserts. -/
def retakeStudentsSpecKey (rs : List Record) : List Record :=
  rs.filter (fun r => 2 ≤ (rs.filter (fun s => studentKey s == studentKey r)).length)

/-- Record of the same student as `sampleRetakeOlder` under the
(name, student id) key, but with a different email; fetched first with
the higher round. -/
def sampleRetakeNewer : Record :=
  ⟨2, "PCCP", "박민수", "202100003", "park1@pusan.ac.kr", "정보컴퓨터공학부", "3",
    some 500, "합격", "Lv.2"⟩

/-- The earlier-round record of the same (name, student id), fetched
second. -/
def sampleRetakeOlder : Record :=
  ⟨1, "PCCP", "박민수", "202100003", "park2@pusan.ac.kr", "정보컴퓨터공학부", "3",
    some 400, "불합격", "없음"⟩

/-- Counterexample for claim C5: two records sharing name and student
id but differing in email.  Under the claim's three-field key they are
two different students with one record each, so the retake set would be
empty; the code's retake grouping at line 828 keys on (name, student
id) only and keeps both rows. -/
theorem retake_key_cex :
    studentKey sampleRetakeNewer ≠ studentKey sampleRetakeOlder ∧
    retakeStudentsSpecKey [sampleRetakeNewer, sampleRetakeOlder] = [] ∧
    retakeStudents [sampleRetakeNewer, sampleRetakeOlder] =
      [sampleRetakeNewer, sampleRetakeOlder] := by
  refine ⟨?_, ?_, ?_⟩ <;> decide

theorem count_eq_one_of_nodup_mem {α : Type} [BEq α] [LawfulBEq α] {l : List α} {a : α}
    (d : l.Nodup) (h : a ∈ l) : l.count a = 1 := by
  induction l with
  | nil => simp at h
  | cons x xs ih =>
    rcases List.nodup_cons.mp d with ⟨hx, hxs⟩
    rcases List.mem_cons.mp h with h | h
    · subst h
      rw [List.count_cons_self]
      rw [List.count_eq_zero.mpr hx]
    · have hne : a ≠ x := fun he => hx (he ▸ h)
      rw [List.count_cons_of_ne hne]
      exact ih hxs h

/-- Claim C5 as amended: the performance tab (line 625) groups by the
three-field key - two records denote the same student there exactly
when name, email and student id all agree - while the retake analysis
(line 828) groups by (name, student id) only, ignoring email; and any
student key occurring at least 3 times appears exactly once in the
frequent-test-taker table. -/
theorem student_grouping (rs : List Record) (r r2 : Record)
    (k : String × String × String) :
    (studentKey r = studentKey r2 ↔
      r.name = r2.name ∧ r.email = r2.email ∧ r.studentId = r2.studentId) ∧
    (r.name = r2.name → r.studentId = r2.studentId → retakeKey r = retakeKey r2) ∧
    (k ∈ rs.map studentKey → 3 ≤ attemptCount rs k →
      (frequentTestTakers rs).count k = 1) := by
  refine ⟨?_, ?_, ?_⟩
  · simp [studentKey, Prod.ext_iff, and_assoc]
  · intro h1 h2
    simp [retakeKey, h1, h2]
  · intro hk hc
    apply count_eq_one_of_nodup_mem
    · exact (List.nodup_dedup _).filter _
    · rw [frequentTestTakers, List.mem_filter, List.mem_dedup]
      exact ⟨hk, by simpa using hc⟩

/-- Three attempts by one student, used by the C5 witness. -/
def freqRecords : List Record :=
  [⟨1, "PCCP", "홍길동", "202100004", "hong@pusan.ac.kr", "정보컴퓨터공학부", "2",
      some 350, "불합격", "없음"⟩,
   ⟨2, "PCCP", "홍길동", "202100004", "hong@pusan.ac.kr", "정보컴퓨터공학부", "2",
      some 420, "합격", "Lv.1"⟩,
   ⟨3, "PCCP", "홍길동", "202100004", "hong@pusan.ac.kr", "정보컴퓨터공학부", "3",
      some 510, "합격", "Lv.2"⟩]

/-- Witness for C5 at a concrete input: a student with three attempts
appears exactly once in the frequent-test-taker table. -/
theorem student_grouping_witness :
    (frequentTestTakers freqRecords).count ("홍길동", "hong@pusan.ac.kr", "202100004") = 1 :=
  (student_grouping freqRecords sampleRecPass sampleRecPass
      ("홍길동", "hong@pusan.ac.kr", "202100004")).2.2 (by decide) (by decide)

/-- Row comparison by ascending round: the sort key of
`sort_values('회차')`. -/
def roundLE (a b : Record) : Prop := a.round ≤ b.round

instance : DecidableRel roundLE := fun a b => inferInstanceAs (Decidable (a.round ≤ b.round))

instance : IsTotal Record roundLE := ⟨fun a b => Int.le_total a.round b.round⟩

instance : IsTrans Record roundLE := ⟨fun _ _ _ => Int.le_trans⟩

/-- `sort_values('회차')`: order a row list by ascending round. -/
def sortByRound (rows : List Record) : List Record := List.insertionSort roundLE rows

/-- The scores of a row list in row order with the missing values
dropped: pandas numeric aggregations (`first`, `last`, `mean`, `max`)
skip NaN. -/
def scoresOf (rows : List Record) : List ℚ := rows.filterMap Record.score

/-- One student's rows inside `retake_students`, in their original
order (line 832 groups without sorting). -/
def retakeRows (rs : List Record) (k : String × String) : List Record :=
  (retakeStudents rs).filter (fun r => retakeKey r == k)

/-- `점수향상도` at lines 832-838: pandas `agg('first')` and
`agg('last')` take the first and the last non-null score in the
group's existing row order - the code does not sort by round here -
and the improvement is their difference. -/
def scoreImprovement (rs : List Record) (k : String × String) : Option ℚ :=
  match (scoresOf (retakeRows rs k)).head?, (scoresOf (retakeRows rs k)).getLast? with
  | some f, some l => some (l - f)
  | _, _ => none

/-- Follows the spec's words for claim C6: the same improvement but
with the student's history first ordered by round, as §4.4 and the
claim prescribe. -/
def scoreImprovementByRound (rs : List Record) (k : String × String) : Option ℚ :=
  match (scoresOf (sortByRound (retakeRows rs k))).head?,
        (scoresOf (sortByRound (retakeRows rs k))).getLast? with
  | some f, some l => some (l - f)
  | _, _ => none

/-- Claim C6 at the failing input (code bug): a student whose two
records arrive in fetch order (round 2, score 500) then (round 1,
score 400).  Lines 832-838 take first/last in fetch order and report
improvement `400 - 500 = -100`, while the round-ordered history
required by the claim - and by the code's own column names
`첫시험점수`/`최근시험점수` (first/latest exam score, line 837) -
gives `500 - 400 = 100`. -/
theorem retake_improvement_fetch_order :
    scoreImprovement [sampleRetakeNewer, sampleRetakeOlder] ("박민수", "202100003") =
      some (-100) ∧
    scoreImprovementByRound [sampleRetakeNewer, sampleRetakeOlder] ("박민수", "202100003") =
      some 100 := by
  have hrows : retakeRows [sampleRetakeNewer, sampleRetakeOlder] ("박민수", "202100003") =
      [sampleRetakeNewer, sampleRetakeOlder] := by decide
  have hsort : sortByRound [sampleRetakeNewer, sampleRetakeOlder] =
      [sampleRetakeOlder, sampleRetakeNewer] := by decide
  have hs1 : scoresOf [sampleRetakeNewer, sampleRetakeOlder] = [500, 400] := by decide
  have hs2 : scoresOf [sampleRetakeOlder, sampleRetakeNewer] = [400, 500] := by decide
  constructor
  · simp only [scoreImprovement, hrows, hs1, List.head?, List.getLast?]
    norm_num
  · simp only [scoreImprovementByRound, hrows, hsort, hs2, List.head?, List.getLast?]
    norm_num

/-- `합격여부_binary` (line 104): `'합격' ↦ 1`, `'불합격' ↦ 0`, any
other status maps to NaN. -/
def statusBinary (r : Record) : Option ℚ :=
  if r.status = "합격" then some 1
  else if r.status = "불합격" then some 0
  else none

/-- pandas `mean` over a column: NaN (`none`) when no value is
present, otherwise the sum over the count. -/
def meanQ (l : List ℚ) : Option ℚ :=
  if l.isEmpty then none else some (l.sum / l.length)

/-- pandas `max` over the present values of a column. -/
def maxQ : List ℚ → Option ℚ
  | [] => none
  | x :: xs =>
    match maxQ xs with
    | none => some x
    | some m => some (max x m)

/-- pandas `min` over the present values of a column. -/
def minQ : List ℚ → Option ℚ
  | [] => none
  | x :: xs =>
    match minQ xs with
    | none => some x
    | some m => some (min x m)

/-- The per-round statistic of the comparison tab (lines 949-955 and
965-971): headcount, mean score, pass rate (mean of the binary column
times 100), best and worst score. -/
structure RoundStat where
  count : Nat
  avgScore : Option ℚ
  passRate : Option ℚ
  maxScore : Option ℚ
  minScore : Option ℚ
  deriving Repr, DecidableEq

/-- Lines 949-955: the statistic of one round subset. -/
def roundStat (rows : List Record) : RoundStat :=
  ⟨rows.length, meanQ (scoresOf rows),
   (meanQ (rows.filterMap statusBinary)).map (fun x => x * 100),
   maxQ (scoresOf rows), minQ (scoresOf rows)⟩

/-- NaN-propagating subtraction, for the deltas of lines 1064 and
1072. -/
def optSub (a b : Option ℚ) : Option ℚ :=
  match a, b with
  | some x, some y => some (x - y)
  | _, _ => none

/-- The department filter of the comparison tab (lines 931-935). -/
def cseFilter (rs : List Record) : List Record :=
  rs.filter (fun r =>
    r.dept == "정보컴퓨터공학부" ||
    r.dept == "전기컴퓨터공학부 정보컴퓨터공학전공" ||
    r.dept == "전기컴퓨터공학부")

/-- Outcome of the round-3 versus round-5 comparison tab. -/
inductive CompareOutcome where
  | computed (stat3 stat5 : RoundStat) (avgScoreChange passRateChange : Option ℚ)
  | skipped (round3Missing round5Missing : Bool)
  deriving Repr, DecidableEq

/-- Lines 938-941 and 1060-1100: both statistics and the two overall
deltas are computed only when both round subsets are non-empty (the
test at line 941); otherwise the whole tab body is skipped and a
warning is issued for each empty subset (lines 1096-1100). -/
def compareRounds (rs : List Record) : CompareOutcome :=
  let cse := cseFilter rs
  let round3 := cse.filter (fun r => r.round == 3)
  let round5 := cse.filter (fun r => r.round == 5)
  if !round3.isEmpty && !round5.isEmpty then
    .computed (roundStat round3) (roundStat round5)
      (optSub (meanQ (scoresOf round5)) (meanQ (scoresOf round3)))
      (optSub ((meanQ (round5.filterMap statusBinary)).map (fun x => x * 100))
        ((meanQ (round3.filterMap statusBinary)).map (fun x => x * 100)))
  else .skipped round3.isEmpty round5.isEmpty

/-- One round-5 record of the comparison department. -/
def sampleRound5 : Record :=
  ⟨5, "PCCP", "강하늘", "202100006", "kang@pusan.ac.kr", "정보컴퓨터공학부", "3",
    some 520, "합격", "Lv.2"⟩

/-- Five round-5 records and no round-3 record. -/
def compareRecords : List Record := List.replicate 5 sampleRound5

/-- Counterexample for claim C7: with zero round-3 records and five
round-5 records the claim expects the round-3 statistic reported as the
zero statistic, the round-5 statistic computed normally and only the
delta flagged unavailable; the code (line 941) instead skips the whole
comparison, computing no statistic for either round, and only flags the
missing round-3 subset (line 1097). -/
theorem compare_rounds_cex :
    compareRounds compareRecords = CompareOutcome.skipped true false := by decide

/-- Claim C7 as amended: if either round subset is empty, the
comparison computes nothing at all - no statistic for either subset
and no delta; the outcome is the skipped marker that flags each empty
subset with its warning, and nothing is raised (the branch is total). -/
theorem compare_rounds_skip (rs : List Record)
    (h : (cseFilter rs).filter (fun r => r.round == 3) = [] ∨
      (cseFilter rs).filter (fun r => r.round == 5) = []) :
    compareRounds rs = CompareOutcome.skipped
      ((cseFilter rs).filter (fun r => r.round == 3)).isEmpty
      ((cseFilter rs).filter (fun r => r.round == 5)).isEmpty := by
  rcases h with h | h <;> simp [compareRounds, h]

/-- Witness for C7 at the concrete five-record input. -/
theorem compare_rounds_skip_witness :
    compareRounds compareRecords = CompareOutcome.skipped
      ((cseFilter compareRecords).filter (fun r => r.round == 3)).isEmpty
      ((cseFilter compareRecords).filter (fun r => r.round == 5)).isEmpty :=
  compare_rounds_skip compareRecords (Or.inl (by decide))

/-- Outcome of one run of `main` over a data snapshot. -/
inductive PipelineOutcome where
  | dbEmptyError
  | noDataWarning
  | stats (s : OverallStat)
  deriving Repr, DecidableEq

/-- The empty-data control flow of `main`: an empty table triggers
`st.error` and an abort before any aggregation (lines 94-96 and
158-160); an empty filtered set triggers `st.warning` and an abort
(lines 227-229); otherwise the first tab aggregates (lines 259-261). -/
def mainPipeline (raw : List Record) (f : FilterSpec) : PipelineOutcome :=
  if raw.isEmpty then .dbEmptyError
  else if (applyFilters f raw).isEmpty then .noDataWarning
  else .stats (overallStats (applyFilters f raw))

/-- Counterexample for claim C8: with no records at all the pipeline
does not aggregate to a zero statistic behind a "no data" message -
line 95 issues `st.error` (an error state) and `main` aborts before
any aggregation runs. -/
theorem empty_db_error_cex :
    mainPipeline [] sampleFilter = PipelineOutcome.dbEmptyError ∧
    PipelineOutcome.dbEmptyError ≠ PipelineOutcome.noDataWarning ∧
    PipelineOutcome.dbEmptyError ≠ PipelineOutcome.stats zeroStat := by
  refine ⟨rfl, ?_, ?_⟩ <;> decide

/-- Claim C8 as amended: empty-result conditions never raise, but they
do not reach the aggregators either: an empty table yields the blocking
error outcome, a non-empty table whose filtered set is empty yields the
"no data" warning outcome, and only a non-empty filtered set is
aggregated; the overall-stats function itself would still return the
well-defined zero statistic on empty input thanks to the rate guard. -/
theorem empty_handling (raw : List Record) (f : FilterSpec) :
    (raw = [] → mainPipeline raw f = PipelineOutcome.dbEmptyError) ∧
    (raw ≠ [] → applyFilters f raw = [] →
      mainPipeline raw f = PipelineOutcome.noDataWarning) ∧
    (raw ≠ [] → applyFilters f raw ≠ [] →
      mainPipeline raw f =
        PipelineOutcome.stats (overallStats (applyFilters f raw))) ∧
    overallStats [] = zeroStat := by
  refine ⟨?_, ?_, ?_, rfl⟩
  · intro h
    subst h
    rfl
  · intro h1 h2
    simp [mainPipeline, h1, h2]
  · intro h1 h2
    simp [mainPipeline, h1, h2]

/-- Witness for C8 at concrete inputs: the empty table and a table
whose filtered set is empty. -/
theorem empty_handling_witness :
    mainPipeline [] emptyDeptFilter = PipelineOutcome.dbEmptyError ∧
    mainPipeline sampleRecords emptyDeptFilter = PipelineOutcome.noDataWarning :=
  ⟨(empty_handling [] emptyDeptFilter).1 rfl,
   (empty_handling sampleRecords emptyDeptFilter).2.1 (by decide) (by decide)⟩

/-- A record whose pass status `'보류'` lies outside the fixed
vocabulary. -/
def sampleRecOther : Record :=
  ⟨1, "PCCP", "최지우", "202100005", "choi@pusan.ac.kr", "정보컴퓨터공학부", "4",
    some 300, "보류", "없음"⟩

/-- A filter accepting every field value of `sampleRecOther`, with the
status selection at its default - the full fixed vocabulary offered by
lines 183-188. -/
def sampleOtherFilter : FilterSpec :=
  ⟨["정보컴퓨터공학부"], ["4"], defaultPassOptions, ["없음"], ["PCCP"]⟩

/-- Counterexample for claim C9: the record with the out-of-vocabulary
status `'보류'` is dropped by the pipeline even under the default
(maximal) filter selection, because the status multiselect only offers
`['합격', '불합격']` (lines 183-188) and line 222 keeps only the rows
whose status is in the selection. -/
theorem status_vocab_cex :
    applyFilters sampleOtherFilter [sampleRecOther] = [] := by decide

/-- Claim C9 as amended: every reachable filter has its accepted
status set inside the fixed vocabulary (the multiselect offers nothing
else), so a record with any other status is always excluded by line
222; the records that do pass the filter are surfaced exactly as
stored - the filter selects rows and rewrites nothing. -/
theorem status_filtering (f : FilterSpec) (rs : List Record)
    (hf : ∀ s ∈ f.passStatus, s ∈ defaultPassOptions) :
    (∀ r ∈ rs, r.status ∉ defaultPassOptions → r ∉ applyFilters f rs) ∧
    (∀ r ∈ applyFilters f rs, r ∈ rs) := by
  constructor
  · intro r _ hs hmem
    rw [applyFilters, List.mem_filter, recordPasses_iff] at hmem
    exact hs (hf _ hmem.2.2.2.1)
  · intro r hr
    exact (List.mem_filter.mp hr).1

/-- Witness for C9 at the concrete out-of-vocabulary record. -/
theorem status_filtering_witness :
    sampleRecOther ∉ applyFilters sampleOtherFilter [sampleRecOther] :=
  (status_filtering sampleOtherFilter [sampleRecOther] (by decide)).1
    sampleRecOther (by decide) (by decide)

theorem maxQ_mem {l : List ℚ} {m : ℚ} (h : maxQ l = some m) : m ∈ l := by
  induction l generalizing m with
  | nil => simp [maxQ] at h
  | cons x xs ih =>
    simp only [maxQ] at h
    cases hx : maxQ xs with
    | none =>
      rw [hx] at h
      simp at h
      simp [h]
    | some m0 =>
      rw [hx] at h
      simp at h
      rcases max_choice x m0 with hc | hc <;> rw [hc] at h
      · simp [h]
      · exact List.mem_cons_of_mem _ (h ▸ ih hx)

theorem maxQ_le {l : List ℚ} {m : ℚ} (h : maxQ l = some m) : ∀ s ∈ l, s ≤ m := by
  induction l generalizing m with
  | nil => simp
  | cons x xs ih =>
    intro s hs
    simp only [maxQ] at h
    cases hx : maxQ xs with
    | none =>
      rw [hx] at h
      simp at h
      have hxs : xs = [] := by
        cases xs with
        | nil => rfl
        | cons a as =>
          simp only [maxQ] at hx
          cases h2 : maxQ as <;> rw [h2] at hx <;> simp at hx
      subst hxs
      simp at hs
      simp [hs, h]
    | some m0 =>
      rw [hx] at h
      simp at h
      subst h
      rcases List.mem_cons.mp hs with h | h
      · subst h
        exact le_max_left _ _
      · exact le_trans (ih hx _ h) (le_max_right _ _)

theorem meanQ_perm {l1 l2 : List ℚ} (h : List.Perm l1 l2) : meanQ l1 = meanQ l2 := by
  have hl : l1.length = l2.length := h.length_eq
  have hs : l1.sum = l2.sum := h.sum_eq
  rcases l1 with _ | ⟨x, xs⟩
  · have h2 : l2 = [] := List.eq_nil_of_length_eq_zero hl.symm
    rw [h2]
  · rcases l2 with _ | ⟨y, ys⟩
    · simp at hl
    · simp [meanQ, hs, hl]

/-- All records of one student key, in their original order (the mask
of lines 636-639). -/
def studentHist (rs : List Record) (k : String × String × String) : List Record :=
  rs.filter (fun r => studentKey r == k)

/-- One row of the frequent-test-taker detail table (lines 646-656). -/
structure DetailRow where
  name : String
  email : String
  studentId : String
  dept : String
  grade : String
  attempts : Nat
  passes : Nat
  avgScore : Option ℚ
  maxScore : Option ℚ
  deriving Repr, DecidableEq

/-- Lines 634-656: the student's rows are selected and sorted by round
(lines 636-640), the department and grade are read from the first
sorted row (`iloc[0]`, lines 650-651), and the attempt count, pass
count, mean score and max score range over all of the student's rows
(lines 642-644, 652-655).  `none` is returned for a key with no rows
(such a key never reaches this code: line 626 requires at least three
rows). -/
def detailRow (rs : List Record) (k : String × String × String) : Option DetailRow :=
  match sortByRound (studentHist rs k) with
  | [] => none
  | h0 :: t =>
      some ⟨k.1, k.2.1, k.2.2, h0.dept, h0.grade, (h0 :: t).length,
        ((h0 :: t).filter (fun r => r.status == "합격")).length,
        meanQ (scoresOf (h0 :: t)), maxQ (scoresOf (h0 :: t))⟩

/-- Claim C10 (lines 634-656): every row of the frequent-test-taker
table reads its department and grade from the head of the round-sorted
history - a record of minimal round among the student's records - while
attempts, passes, mean score and max score are computed over all of the
student's filtered records. -/
theorem frequent_table_first_round (rs : List Record)
    (k : String × String × String) (row : DetailRow)
    (hrow : detailRow rs k = some row) :
    ∃ h0, h0 ∈ studentHist rs k ∧
      (∀ r ∈ studentHist rs k, h0.round ≤ r.round) ∧
      row.dept = h0.dept ∧ row.grade = h0.grade ∧
      row.attempts = (studentHist rs k).length ∧
      row.passes = ((studentHist rs k).filter (fun r => r.status == "합격")).length ∧
      row.avgScore = meanQ (scoresOf (studentHist rs k)) ∧
      (∀ m, row.maxScore = some m →
        m ∈ scoresOf (studentHist rs k) ∧
        ∀ s ∈ scoresOf (studentHist rs k), s ≤ m) := by
  unfold detailRow at hrow
  rcases hh : sortByRound (studentHist rs k) with _ | ⟨h0, t⟩ <;> rw [hh] at hrow
  · simp at hrow
  · simp only [Option.some.injEq] at hrow
    subst hrow
    have hp : List.Perm (sortByRound (studentHist rs k)) (studentHist rs k) :=
      List.perm_insertionSort roundLE (studentHist rs k)
    rw [hh] at hp
    have hsorted : List.Sorted roundLE (sortByRound (studentHist rs k)) :=
      List.sorted_insertionSort roundLE (studentHist rs k)
    rw [hh] at hsorted
    have hmin : ∀ b ∈ t, roundLE h0 b := (List.sorted_cons.mp hsorted).1
    have hscores : List.Perm (scoresOf (h0 :: t)) (scoresOf (studentHist rs k)) :=
      hp.filterMap Record.score
    refine ⟨h0, hp.subset (List.mem_cons_self h0 t), ?_, rfl, rfl, hp.length_eq,
      (hp.filter _).length_eq, meanQ_perm hscores, ?_⟩
    · intro r hr
      rcases List.mem_cons.mp (hp.mem_iff.mpr hr) with h | h
      · exact le_of_eq (congrArg Record.round h.symm)
      · exact hmin r h
    · intro m hm
      refine ⟨hscores.subset (maxQ_mem hm), ?_⟩
      intro s hsmem
      exact maxQ_le hm s (hscores.mem_iff.mpr hsmem)

/-- The round-3 attempt of the C10 witness student (fetched first,
after a department change). -/
def sampleHistR3 : Record :=
  ⟨3, "PCCP", "정수민", "202100007", "jung@pusan.ac.kr", "전기컴퓨터공학부", "3",
    some 600, "합격", "Lv.3"⟩

/-- The round-1 attempt of the C10 witness student. -/
def sampleHistR1 : Record :=
  ⟨1, "PCCP", "정수민", "202100007", "jung@pusan.ac.kr", "정보컴퓨터공학부", "1",
    some 400, "불합격", "없음"⟩

/-- The round-2 attempt of the C10 witness student. -/
def sampleHistR2 : Record :=
  ⟨2, "PCCP", "정수민", "202100007", "jung@pusan.ac.kr", "정보컴퓨터공학부", "2",
    some 500, "합격", "Lv.2"⟩

/-- The three attempts in fetch order (round 3 first). -/
def histRecords : List Record := [sampleHistR3, sampleHistR1, sampleHistR2]

/-- The witness student's composite key. -/
def histKey : String × String × String := ("정수민", "jung@pusan.ac.kr", "202100007")

/-- The detail-table row the code produces for the witness student:
department and grade of the round-1 record, aggregates over all three
attempts. -/
def histRow : DetailRow :=
  ⟨"정수민", "jung@pusan.ac.kr", "202100007", "정보컴퓨터공학부", "1", 3, 2,
    some 500, some 600⟩

theorem histRow_computed : detailRow histRecords histKey = some histRow := by
  have h1 : sortByRound (studentHist histRecords histKey) =
      [sampleHistR1, sampleHistR2, sampleHistR3] := by decide
  have h2 : scoresOf [sampleHistR1, sampleHistR2, sampleHistR3] = [400, 500, 600] := by
    decide
  unfold detailRow
  rw [h1]
  simp only [h2, meanQ, maxQ, histRow, histKey]
  norm_num [sampleHistR1, sampleHistR2, sampleHistR3, max_def]
  decide

/-- Witness for C10: the theorem applied to the concrete three-attempt
student whose records arrive out of round order. -/
theorem frequent_table_first_round_witness :
    ∃ h0, h0 ∈ studentHist histRecords histKey ∧
      (∀ r ∈ studentHist histRecords histKey, h0.round ≤ r.round) ∧
      histRow.dept = h0.dept ∧ histRow.grade = h0.grade ∧
      histRow.attempts = (studentHist histRecords histKey).length ∧
      histRow.passes =
        ((studentHist histRecords histKey).filter (fun r => r.status == "합격")).length ∧
      histRow.avgScore = meanQ (scoresOf (studentHist histRecords histKey)) ∧
      (∀ m, histRow.maxScore = some m →
        m ∈ scoresOf (studentHist histRecords histKey) ∧
        ∀ s ∈ scoresOf (studentHist histRecords histKey), s ≤ m) :=
  frequent_table_first_round histRecords histKey histRow histRow_computed
